import Mathlib

/-
Verification of the background-task orchestration core of the
arxiv-Summarizer repository (src/arxiv_api.py, src/deepseek_api.py,
src/workers.py, src/main.py) against its natural-language specification.

The Python source is shallowly embedded: pure fragments become Lean
functions; time is modelled as a natural number clock; the Qt event loop
is modelled as a sequence of events applied to an explicit state; worker
threads and their signal emissions are modelled either functionally
(returning the list of emitted signals) or, where interleaving with stop()
matters, as a small-step transition relation.
-/

namespace ArxivSummarizer

/-! ## ArxivAPI (src/arxiv_api.py) -/

/-- Request parameter record built inside ArxivAPI.search
(arxiv_api.py lines 114-120). -/
structure RequestParams where
  search_query : String
  start : Nat
  max_results : Nat
  sortBy : String
  sortOrder : String
  deriving Repr, DecidableEq

/-- Parameter construction in ArxivAPI.search: the max_results parameter
actually sent is min(max_results, 50) (arxiv_api.py line 117). -/
def build_params (search_query : String) (start max_results : Nat)
    (sort_by sort_order : String) : RequestParams :=
  { search_query := search_query
    start := start
    max_results := min max_results 50
    sortBy := sort_by
    sortOrder := sort_order }

/-- The min_request_interval constant of ArxivAPI (arxiv_api.py line 72). -/
def min_request_interval : Nat := 3

/-- ArxivAPI._wait_for_rate_limit (arxiv_api.py lines 74-79), with time
modelled as a natural-number clock. Input: the configured minimal interval,
the stored last_request_time, and the current clock value on entry. The
call sleeps for the missing amount when the elapsed time is below the
interval, then stores the new clock value and returns. Output: the pair
(clock value at the moment the call returns, stored last_request_time);
the store happens before the return, and with an exact sleep the two
components coincide. -/
def wait_for_rate_limit (min_interval last_request_time now : Nat) :
    Nat × Nat :=
  let elapsed := now - last_request_time
  if elapsed < min_interval then
    let return_time := now + (min_interval - elapsed)
    (return_time, return_time)
  else
    (now, now)

/-- Signals emitted on the ArxivAPI object during search
(search_started, search_finished, search_error). -/
inductive ApiSearchEmit where
  | search_started
  | search_finished (results : List Nat)
  | search_error (m : String)
  deriving Repr, DecidableEq

/-- ArxivAPI.search (arxiv_api.py lines 104-146), control flow around the
network transport. Papers are opaque identifiers. The input is the outcome
of the requests.get / raise_for_status / parse pipeline: Except.ok with the
parsed result list, or Except.error when that pipeline raises. The method
first emits search_started, then on success emits search_finished and
returns the papers, and on any exception emits search_error with the
prefixed message and RETURNS the empty list: the exception is swallowed
(except branch, lines 143-146), so search itself never raises, which the
Lean return type (no exception channel) makes explicit. -/
def arxiv_search (transport : Except String (List Nat)) :
    List ApiSearchEmit × List Nat :=
  match transport with
  | Except.ok papers =>
      ([ApiSearchEmit.search_started, ApiSearchEmit.search_finished papers],
       papers)
  | Except.error e =>
      ([ApiSearchEmit.search_started,
        ApiSearchEmit.search_error ("搜索出错: " ++ e)],
       [])

/-! ## SearchWorker (src/workers.py lines 4-24) -/

/-- Signals of SearchWorker: finished(list) and error(str). -/
inductive SEmit where
  | finished (results : List Nat)
  | error (m : String)
  deriving Repr, DecidableEq

/-- SearchWorker.run (workers.py lines 15-21), generic over the api.search
call it performs: if is_running, perform the call; the finished signal is
emitted with the returned results; if the call raises, the except branch
emits error. If is_running is false the call never happens and nothing is
emitted. The call is a thunk because it is only evaluated under the
is_running guard. -/
def search_worker_run (is_running : Bool)
    (api_call : Unit → Except String (List Nat)) : List SEmit :=
  if is_running then
    match api_call () with
    | Except.ok results => [SEmit.finished results]
    | Except.error e => [SEmit.error e]
  else []

/-- SearchWorker.run composed with the actual ArxivAPI.search of this
repository: the worker invokes arxiv_search, which never raises, so the
worker observes Except.ok of whatever list search returned. Output: the
emissions of the worker and the emissions on the api object. -/
def search_worker_run_composed (is_running : Bool)
    (transport : Except String (List Nat)) :
    List SEmit × List ApiSearchEmit :=
  let out := arxiv_search transport
  (search_worker_run is_running (fun _ => Except.ok out.2), out.1)

/-! ## DeepSeekAPI (src/deepseek_api.py) -/

/-- Message of the InterruptedError raised at the cancellation checks in
DeepSeekAPI._make_api_call (deepseek_api.py lines 132 and 148). -/
def cancelled_message : String := "请求被取消"

/-- DeepSeekAPI._make_api_call (deepseek_api.py lines 115-156).
Inputs: the value of status.should_stop() observed at the check before the
network call (line 131) and at the check after the response is received
(line 147), and the response content that the network call delivers.
If the flag is set at the first check it raises InterruptedError before
issuing the call; if set at the second check it raises InterruptedError
instead of returning the received response; otherwise it returns the
response content. Raising is modelled as Except.error. -/
def make_api_call (stop_before stop_after : Bool)
    (response_content : String) : Except String String :=
  if stop_before then Except.error cancelled_message
  else if stop_after then Except.error cancelled_message
  else Except.ok response_content

/-- Message of the TimeoutError raised in DeepSeekAPI.process_abstract
(deepseek_api.py line 89). -/
def timeout_message (timeout : Nat) : String :=
  "请求超时（" ++ toString timeout ++ "秒）"

/-- Waiting loop of DeepSeekAPI.process_abstract (deepseek_api.py lines
85-97), time discretized at the granularity of the loop sleep. done_at is
the first iteration index at which future.done() is true; the elapsed time
observed at iteration k is k units; timeout is the configured timeout in
the same units. Each iteration first checks future.done(), then checks the
STRICT comparison elapsed > timeout, in which case it calls status.stop()
(setting the stop flag, first output component) and raises TimeoutError
(modelled as Except.error with the timeout message); otherwise it sleeps
one unit and repeats. The fuel argument only bounds the recursion and is
chosen large enough at the call site to never run out. -/
def process_abstract_wait (done_at timeout : Nat) (result : String) :
    Nat → Nat → Bool × Except String String
  | 0, _ => (false, Except.ok result)
  | fuel + 1, k =>
    if done_at ≤ k then (false, Except.ok result)
    else if timeout < k then (true, Except.error (timeout_message timeout))
    else process_abstract_wait done_at timeout result fuel (k + 1)

/-- DeepSeekAPI.process_abstract (deepseek_api.py lines 57-113), for a
wrapped call that would deliver `result` at iteration done_at. Output:
(final value of the stop flag of the RequestStatus, Except.ok result on
completion or Except.error on timeout). Status callbacks are pure progress
reporting and are not modelled. -/
def process_abstract (done_at timeout : Nat) (result : String) :
    Bool × Except String String :=
  process_abstract_wait done_at timeout result (done_at + timeout + 2) 0

/-! ## AnalysisWorker (src/workers.py lines 27-65), functional view -/

/-- Tag prepended by AnalysisWorker.run to the message of a TimeoutError
(workers.py line 57), making a timeout distinguishable from other errors. -/
def timeout_tag : String := "分析超时: "

/-- Signals of AnalysisWorker: finished(str, int) and error(str).
The paper index routed alongside finished is kept with the emission. -/
inductive AEmit where
  | finished (r : String) (paper_index : Nat)
  | error (m : String)
  deriving Repr, DecidableEq

/-- Outcome of the api.process_abstract call as observed by
AnalysisWorker.run: a result, a TimeoutError (caught separately at
workers.py line 55), or another exception (line 58). -/
inductive ApiOutcome where
  | ok (r : String)
  | timedOut (m : String)
  | failed (m : String)
  deriving Repr, DecidableEq

/-- AnalysisWorker.run (workers.py lines 45-60) for a worker whose
_is_running flag has the constant value `is_running` throughout the run
(the interleaving with stop() is modelled separately by the transition
system below). With the flag true: a result is emitted as finished, a
TimeoutError as error with the timeout tag prepended, any other exception
as error with its message. With the flag false nothing is emitted. -/
def analysis_run_emits (is_running : Bool) (paper_index : Nat)
    (outcome : ApiOutcome) : List AEmit :=
  if is_running then
    match outcome with
    | ApiOutcome.ok r => [AEmit.finished r paper_index]
    | ApiOutcome.timedOut m => [AEmit.error (timeout_tag ++ m)]
    | ApiOutcome.failed m => [AEmit.error m]
  else []

/-- Bridge from process_abstract to the outcome AnalysisWorker.run
observes: the only exception process_abstract raises in the modelled
fragment is the TimeoutError of its waiting loop. -/
def analysis_api_outcome (done_at timeout : Nat) (result : String) :
    ApiOutcome :=
  match (process_abstract done_at timeout result).2 with
  | Except.ok v => ApiOutcome.ok v
  | Except.error m => ApiOutcome.timedOut m

/-! ## Download path (arxiv_api.py lines 148-183, workers.py lines 68-85) -/

/-- How a download run unfolds: the initial request or raise_for_status
raises (server signaled failure before any chunk), an exception interrupts
the transfer after some chunks were written, or the full chunk sequence is
transferred. Chunks are byte counts as delivered by iter_content. -/
inductive DownloadScenario where
  | httpError (m : String)
  | transferError (written : List Nat) (m : String)
  | complete (chunks : List Nat)
  deriving Repr, DecidableEq

/-- Running totals of the `downloaded` counter after each chunk write
(arxiv_api.py line 170). -/
def cum_written (acc : Nat) : List Nat → List Nat
  | [] => []
  | c :: cs => (acc + c) :: cum_written (acc + c) cs

/-- Progress values emitted on the download_progress signal of the
ArxivAPI object (arxiv_api.py lines 173-175): one value per chunk write,
int((downloaded / total_size) * 100), emitted only when total_size is
non-zero; a missing content-length header yields total_size = 0
(line 164) and hence no progress emission. -/
def progress_values (total_size : Nat) (written : List Nat) : List Nat :=
  if total_size = 0 then []
  else (cum_written 0 written).map (fun downloaded => downloaded * 100 / total_size)

/-- Observable outcome of ArxivAPI.download_paper: the values emitted on
the download_progress signal of the api object, the message emitted on
its download_error signal, whether download_finished was emitted, and the
returned Bool. -/
structure DownloadOutcome where
  api_progress : List Nat
  api_error : Option String
  api_finished : Bool
  result : Bool
  deriving Repr, DecidableEq

/-- ArxivAPI.download_paper (arxiv_api.py lines 148-183): every exception,
whether raised by raise_for_status or during the transfer, is caught by
the single except branch (lines 180-183), which emits download_error on
the api object and RETURNS False; a completed transfer emits
download_finished and returns True. The method therefore never raises,
which the Bool-returning Lean type makes explicit. -/
def download_paper (total_size : Nat) (scen : DownloadScenario) :
    DownloadOutcome :=
  match scen with
  | DownloadScenario.httpError m =>
      { api_progress := []
        api_error := some ("下载出错: " ++ m)
        api_finished := false
        result := false }
  | DownloadScenario.transferError written m =>
      { api_progress := progress_values total_size written
        api_error := some ("下载出错: " ++ m)
        api_finished := false
        result := false }
  | DownloadScenario.complete chunks =>
      { api_progress := progress_values total_size chunks
        api_error := none
        api_finished := true
        result := true }

/-- Signals of DownloadWorker: progress(int), finished(bool), error(str).
The progress signal is declared on the class (workers.py line 70) but no
statement of the class ever emits it. -/
inductive DEmit where
  | progress (p : Nat)
  | finished (ok : Bool)
  | error (m : String)
  deriving Repr, DecidableEq

/-- DownloadWorker.run (workers.py lines 80-85): it calls
api.download_paper and emits finished with the returned Bool; its except
branch emitting error is unreachable because download_paper never raises,
and it emits no progress signal. DownloadWorker has no running flag and
no guard around the emission. -/
def download_worker_run (total_size : Nat) (scen : DownloadScenario) :
    List DEmit :=
  let outcome := download_paper total_size scen
  [DEmit.finished outcome.result]

/-- The three worker classes of src/workers.py. -/
inductive WorkerKind where
  | search
  | analysis
  | download
  deriving Repr, DecidableEq

/-- Which worker classes define a stop method, as dispatched by the
hasattr guard in MainWindow.closeEvent and MainWindow.stop_active_threads
(main.py lines 52 and 356): SearchWorker and AnalysisWorker define stop
(workers.py lines 23 and 62); DownloadWorker defines none. -/
def has_stop_method : WorkerKind → Bool
  | WorkerKind.search => true
  | WorkerKind.analysis => true
  | WorkerKind.download => false

/-! ## Analysis sequencing in MainWindow (src/main.py)

The coordinating state is the part of MainWindow that the analysis
sequencing reads and writes: analysis_queue (a FIFO of (paper, index)
entries, papers as opaque identifiers), the key set of paper_tabs (the
indices that still map to a live UI slot), the is_analyzing flag, and the
number of AnalysisWorker threads currently running. All of these are
mutated only from the Qt main thread, one handler at a time, so a run of
the system is a sequence of handler invocations applied to the state.
The dead method MainWindow.analyze_paper (main.py lines 173-183) has no
caller anywhere in the repository, so AnalysisWorkers are started only by
process_analysis_queue. -/

/-- The analysis_delay constant of MainWindow (main.py line 23), in
seconds: the delay of the QTimer.singleShot rescheduling the queue pump. -/
def analysis_delay : Nat := 3

/-- Sequencing-relevant state of MainWindow. running counts the
AnalysisWorker threads currently in the Running state. -/
structure SeqState where
  queue : List (Nat × Nat)
  tabs : List Nat
  is_analyzing : Bool
  running : Nat
  deriving Repr, DecidableEq

/-- State of MainWindow at construction (main.py lines 20-29): empty
queue, no tabs, is_analyzing false, no worker running. -/
def init_state : SeqState :=
  { queue := [], tabs := [], is_analyzing := false, running := 0 }

/-- Result of one call to process_analysis_queue: the state after the
call and the (paper, index) entry a worker was started for, if any. The
method schedules no timer, so no delay field exists. -/
structure PumpResult where
  state : SeqState
  started : Option (Nat × Nat)
  deriving Repr, DecidableEq

/-- MainWindow.process_analysis_queue (main.py lines 255-291). If the
queue is empty or is_analyzing is true, it returns unchanged. Otherwise
it sets is_analyzing true, peeks (without popping) the front entry, and:
if the index is not a key of paper_tabs, pops that entry, resets
is_analyzing to false and RETURNS, starting no worker, scheduling no
timer and not calling itself again; if the index is valid, it starts an
AnalysisWorker for the front entry, leaving the queue untouched. The
except branch (lines 288-291) guards UI calls outside this model. -/
def process_analysis_queue (s : SeqState) : PumpResult :=
  if s.queue.isEmpty || s.is_analyzing then { state := s, started := none }
  else
    match s.queue with
    | [] => { state := s, started := none }
    | (paper, index) :: rest =>
      if s.tabs.contains index then
        { state := { s with is_analyzing := true, running := s.running + 1 }
          started := some (paper, index) }
      else
        { state := { s with queue := rest, is_analyzing := false }
          started := none }

/-- Behaviour of the queue pump as the specification words it (section
4.5, pumpIfIdle). Modelled from the spec: on an invalid front entry the
pump "discards and recurses immediately", draining invalid entries until
a valid one is found and started. Written only to be compared with
process_analysis_queue, which is the code. -/
def pump_spec_drain (tabs : List Nat) :
    List (Nat × Nat) → List (Nat × Nat) × Option (Nat × Nat)
  | [] => ([], none)
  | (paper, index) :: rest =>
    if tabs.contains index then ((paper, index) :: rest, some (paper, index))
    else pump_spec_drain tabs rest

/-- Modelled from the spec: the full pumpIfIdle of section 4.5, busy
guard plus immediate recursion over invalid entries. -/
def process_analysis_queue_spec (s : SeqState) : PumpResult :=
  if s.queue.isEmpty || s.is_analyzing then { state := s, started := none }
  else
    match pump_spec_drain s.tabs s.queue with
    | (queue1, none) =>
        { state := { s with queue := queue1, is_analyzing := false }
          started := none }
    | (queue1, some entry) =>
        { state := { s with queue := queue1, is_analyzing := true,
                            running := s.running + 1 }
          started := some entry }

/-- Result of a completion or error handler: the state after the handler
and the delay (in seconds) of the QTimer.singleShot pump it scheduled, if
any. The handlers start no worker themselves. -/
structure HandlerResult where
  state : SeqState
  sched : Option Nat
  deriving Repr, DecidableEq

/-- MainWindow.handle_analysis_result (main.py lines 185-206), invoked by
the finished signal of a running AnalysisWorker, whose thread exits right
after this final emission (modelled by decrementing running). The handler
pops the front entry when its index matches the reported paper_index,
resets is_analyzing to false in its finally block, and, when the queue is
still non-empty, schedules process_analysis_queue via
QTimer.singleShot(analysis_delay * 1000, ...) rather than calling it. -/
def handle_analysis_result (s : SeqState) (paper_index : Nat) :
    HandlerResult :=
  let queue1 :=
    match s.queue with
    | (paper, index) :: rest =>
        if index = paper_index then rest else (paper, index) :: rest
    | [] => []
  let state1 : SeqState :=
    { s with queue := queue1, is_analyzing := false,
             running := s.running - 1 }
  { state := state1
    sched := if queue1.isEmpty then none else some analysis_delay }

/-- MainWindow.handle_analysis_error (main.py lines 301-316), invoked by
the error signal of a running AnalysisWorker (thread exit modelled as for
the result handler). It pops the front entry when the queue is non-empty,
resets is_analyzing to false in its finally block, and when the queue is
still non-empty schedules the pump after analysis_delay seconds. -/
def handle_analysis_error (s : SeqState) : HandlerResult :=
  let queue1 :=
    match s.queue with
    | _ :: rest => rest
    | [] => []
  let state1 : SeqState :=
    { s with queue := queue1, is_analyzing := false,
             running := s.running - 1 }
  { state := state1
    sched := if queue1.isEmpty then none else some analysis_delay }

/-- Enqueueing part of MainWindow.handle_search_results (main.py lines
224-240): for each paper a tab index is registered in paper_tabs and the
(paper, index) entry appended to analysis_queue. -/
def handle_search_results_enqueue (s : SeqState)
    (entries : List (Nat × Nat)) (new_tabs : List Nat) : SeqState :=
  { s with queue := s.queue ++ entries, tabs := s.tabs ++ new_tabs }

/-- MainWindow.cleanup_before_search (main.py lines 362-397), run at the
start of every new search: stops every AnalysisWorker (AnalysisWorker.stop
joins the thread), waits for all threads, clears the queue, resets
is_analyzing to false and clears the tab registry. After it returns no
AnalysisWorker is running. -/
def cleanup_before_search (_s : SeqState) : SeqState :=
  { queue := [], tabs := [], is_analyzing := false, running := 0 }

/-- The events the coordinating thread processes, one at a time: a pump
(either the QTimer scheduled one or the initial one after search
results), the finished or error signal of a running worker, the arrival
of search results, and the cleanup preceding a new search. -/
inductive Ev where
  | pump
  | complete (paper_index : Nat)
  | errored
  | enqueue (entries : List (Nat × Nat)) (new_tabs : List Nat)
  | cleanup
  deriving Repr

/-- Effect of one event on the coordinating state. complete and errored
events originate from a running worker; applying them to a state with
running = 0 cannot occur in the program, and the truncated subtraction
makes them harmless there, so the step function is total. -/
def step_ev (s : SeqState) : Ev → SeqState
  | Ev.pump => (process_analysis_queue s).state
  | Ev.complete paper_index => (handle_analysis_result s paper_index).state
  | Ev.errored => (handle_analysis_error s).state
  | Ev.enqueue entries new_tabs => handle_search_results_enqueue s entries new_tabs
  | Ev.cleanup => cleanup_before_search s

/-- Folding a sequence of events over a state. -/
def run_events : SeqState → List Ev → SeqState
  | s, [] => s
  | s, e :: es => run_events (step_ev s e) es

/-- The sequencing invariant: at most one AnalysisWorker is running, and
one is running only while is_analyzing is set. -/
def seq_inv (s : SeqState) : Prop :=
  s.running ≤ 1 ∧ (s.running = 1 → s.is_analyzing = true)

instance (s : SeqState) : Decidable (seq_inv s) := by
  unfold seq_inv; infer_instance

/-! ## AnalysisWorker interleaved with stop() (workers.py lines 27-65)

Small-step model of one AnalysisWorker thread running concurrently with a
caller invoking stop(). The thread executes run() (check the flag, perform
the api call, then either emit under the flag guard or fall through), the
caller executes stop(): set _is_running to false, then wait() until the
thread has exited. The shared flag is a plain field; each transition is
one atomic observation or mutation. -/

/-- Position of the run() body of an AnalysisWorker. -/
inductive RunPhase where
  | entered
  | calling
  | got_result (r : String)
  | got_timeout (m : String)
  | got_failure (m : String)
  | exited
  deriving Repr, DecidableEq

/-- Position of a stop() call racing the run: not yet past the flag
assignment, past the flag assignment and blocked in wait(), or returned. -/
inductive StopPhase where
  | idle
  | flagged
  | returned
  deriving Repr, DecidableEq

/-- Combined state of one AnalysisWorker and the stop() caller. -/
structure AWState where
  is_running : Bool
  phase : RunPhase
  stop_ph : StopPhase
  emitted : List AEmit
  paper_index : Nat
  deriving Repr, DecidableEq

/-- Initial state right after start(): flag true (workers.py line 38),
run() about to check it, stop() not yet called, nothing emitted. -/
def aw_init (paper_index : Nat) : AWState :=
  { is_running := true, phase := RunPhase.entered,
    stop_ph := StopPhase.idle, emitted := [], paper_index := paper_index }

/-- One atomic step of the AnalysisWorker run / stop interleaving.
Run steps follow workers.py lines 45-60: the initial flag check (line 47),
the api call resolving to a result, a TimeoutError or another exception,
and the guarded emissions (lines 53-60) after which run() returns and the
thread exits. Stop steps follow workers.py lines 62-65: the flag
assignment, and the wait() return, enabled only once the thread has
exited. -/
inductive AWStep : AWState → AWState → Prop where
  | check_run (s : AWState) (h : s.phase = RunPhase.entered)
      (hr : s.is_running = true) :
      AWStep s { s with phase := RunPhase.calling }
  | check_stopped (s : AWState) (h : s.phase = RunPhase.entered)
      (hr : s.is_running = false) :
      AWStep s { s with phase := RunPhase.exited }
  | call_ok (s : AWState) (r : String) (h : s.phase = RunPhase.calling) :
      AWStep s { s with phase := RunPhase.got_result r }
  | call_timeout (s : AWState) (m : String) (h : s.phase = RunPhase.calling) :
      AWStep s { s with phase := RunPhase.got_timeout m }
  | call_fail (s : AWState) (m : String) (h : s.phase = RunPhase.calling) :
      AWStep s { s with phase := RunPhase.got_failure m }
  | deliver_ok (s : AWState) (r : String) (h : s.phase = RunPhase.got_result r)
      (hr : s.is_running = true) :
      AWStep s { s with phase := RunPhase.exited,
                        emitted := s.emitted ++ [AEmit.finished r s.paper_index] }
  | drop_ok (s : AWState) (r : String) (h : s.phase = RunPhase.got_result r)
      (hr : s.is_running = false) :
      AWStep s { s with phase := RunPhase.exited }
  | deliver_timeout (s : AWState) (m : String)
      (h : s.phase = RunPhase.got_timeout m) (hr : s.is_running = true) :
      AWStep s { s with phase := RunPhase.exited,
                        emitted := s.emitted ++ [AEmit.error (timeout_tag ++ m)] }
  | drop_timeout (s : AWState) (m : String)
      (h : s.phase = RunPhase.got_timeout m) (hr : s.is_running = false) :
      AWStep s { s with phase := RunPhase.exited }
  | deliver_fail (s : AWState) (m : String)
      (h : s.phase = RunPhase.got_failure m) (hr : s.is_running = true) :
      AWStep s { s with phase := RunPhase.exited,
                        emitted := s.emitted ++ [AEmit.error m] }
  | drop_fail (s : AWState) (m : String)
      (h : s.phase = RunPhase.got_failure m) (hr : s.is_running = false) :
      AWStep s { s with phase := RunPhase.exited }
  | stop_set (s : AWState) (h : s.stop_ph = StopPhase.idle) :
      AWStep s { s with is_running := false, stop_ph := StopPhase.flagged }
  | stop_join (s : AWState) (h : s.stop_ph = StopPhase.flagged)
      (hx : s.phase = RunPhase.exited) :
      AWStep s { s with stop_ph := StopPhase.returned }

/-- Zero or more interleaving steps. -/
def AWReaches (s t : AWState) : Prop := Relation.ReflTransGen AWStep s t

/-! ## Theorems -/

/-- A completed acquire leaves at least min_interval between the recorded
previous timestamp and the return time, and records the return time. -/
theorem wait_for_rate_limit_spaced (min_interval last now : Nat)
    (h : last ≤ now) :
    last + min_interval ≤ (wait_for_rate_limit min_interval last now).1 ∧
    (wait_for_rate_limit min_interval last now).2 =
      (wait_for_rate_limit min_interval last now).1 := by
  unfold wait_for_rate_limit
  dsimp only
  split
  · exact ⟨by omega, rfl⟩
  · exact ⟨by omega, rfl⟩

/-- C5: for consecutive completed rate-limiter acquisitions, the second
does not return until at least min_interval after the timestamp the first
recorded, and each acquisition records its return time as the new
last_request_time before returning. The first call starts from a stored
timestamp not in the future (h1); the second call starts at a clock value
at or after the first returned (h2). -/
theorem C5_rate_limiter_spacing (min_interval last now1 now2 : Nat)
    (h1 : last ≤ now1)
    (h2 : (wait_for_rate_limit min_interval last now1).2 ≤ now2) :
    (wait_for_rate_limit min_interval last now1).2 + min_interval ≤
      (wait_for_rate_limit min_interval
        (wait_for_rate_limit min_interval last now1).2 now2).1 ∧
    (wait_for_rate_limit min_interval
        (wait_for_rate_limit min_interval last now1).2 now2).2 =
      (wait_for_rate_limit min_interval
        (wait_for_rate_limit min_interval last now1).2 now2).1 ∧
    (wait_for_rate_limit min_interval last now1).2 =
      (wait_for_rate_limit min_interval last now1).1 := by
  refine ⟨(wait_for_rate_limit_spaced _ _ _ h2).1,
          (wait_for_rate_limit_spaced _ _ _ h2).2,
          (wait_for_rate_limit_spaced _ _ _ h1).2⟩

/-- Witness for C5 at min_interval 3, stored timestamp 0, first call at
clock 1 (which sleeps until 3), second call at clock 4. -/
theorem C5_rate_limiter_spacing_witness :
    (0 ≤ 1 ∧ (wait_for_rate_limit 3 0 1).2 ≤ 4) ∧
    ((wait_for_rate_limit 3 0 1).2 + 3 ≤
        (wait_for_rate_limit 3 (wait_for_rate_limit 3 0 1).2 4).1 ∧
      (wait_for_rate_limit 3 (wait_for_rate_limit 3 0 1).2 4).2 =
        (wait_for_rate_limit 3 (wait_for_rate_limit 3 0 1).2 4).1 ∧
      (wait_for_rate_limit 3 0 1).2 = (wait_for_rate_limit 3 0 1).1) :=
  ⟨⟨by decide, by decide⟩,
   C5_rate_limiter_spacing 3 0 1 4 (by decide) (by decide)⟩

/-- C8: make_api_call aborts with the cancellation error whenever the
stop flag is observed true at the check before the network call or at the
check after the response was received; in particular it never returns the
received response in those cases. -/
theorem C8_stop_checks_cancel (stop_before stop_after : Bool)
    (response_content : String)
    (h : stop_before = true ∨ stop_after = true) :
    make_api_call stop_before stop_after response_content =
      Except.error cancelled_message ∧
    make_api_call stop_before stop_after response_content ≠
      Except.ok response_content := by
  unfold make_api_call
  rcases h with h | h
  · simp [h]
  · cases stop_before <;> simp [h]

/-- Witness for C8 in the case the response was successfully received and
the flag was set only at the post-response check. -/
theorem C8_stop_checks_cancel_witness :
    (false = true ∨ true = true) ∧
    (make_api_call false true "analysis text" =
        Except.error cancelled_message ∧
      make_api_call false true "analysis text" ≠
        Except.ok "analysis text") :=
  ⟨Or.inr rfl, C8_stop_checks_cancel false true "analysis text" (Or.inr rfl)⟩

/-- C10: the max_results value placed in the request parameters is capped
at 50 whenever the caller asks for more. -/
theorem C10_max_results_capped (query sort_by sort_order : String)
    (start max_results : Nat) (h : 50 < max_results) :
    (build_params query start max_results sort_by sort_order).max_results
      = 50 ∧
    ∀ m : Nat,
      (build_params query start m sort_by sort_order).max_results ≤ 50 := by
  constructor
  · simp [build_params, Nat.min_eq_right (Nat.le_of_lt h)]
  · intro m; simp [build_params]

/-- Witness for C10 at a request for 60 results. -/
theorem C10_max_results_capped_witness :
    50 < 60 ∧
    ((build_params "deep learning" 0 60 "relevance" "descending").max_results
        = 50 ∧
      ∀ m : Nat,
        (build_params "deep learning" 0 m "relevance" "descending").max_results
          ≤ 50) :=
  ⟨by decide,
   C10_max_results_capped "deep learning" "relevance" "descending" 0 60
     (by decide)⟩

/-- C2 counterexample: with a transport error inside ArxivAPI.search, the
Search worker emits one finished signal carrying the empty list and zero
error signals, because search swallows the exception and returns [].
The claim as stated (exactly one Error, zero Finished) is therefore false
on the code for a transport error. -/
theorem C2_counterexample :
    (search_worker_run_composed true
        (Except.error "connection refused")).1 = [SEmit.finished []] := rfl

/-- C2 amended: if the underlying transport call raises, ArxivAPI.search
catches the exception, emits search_error (after search_started) on the
API object, and returns the empty list; the Search worker consequently
emits exactly one finished signal with the empty list and zero error
signals. The worker error signal would require api.search itself to
raise, which it never does. -/
theorem C2_transport_error_emissions (e : String) :
    (search_worker_run_composed true (Except.error e)).1 =
      [SEmit.finished []] ∧
    (search_worker_run_composed true (Except.error e)).2 =
      [ApiSearchEmit.search_started,
       ApiSearchEmit.search_error ("搜索出错: " ++ e)] :=
  ⟨rfl, rfl⟩

/-- When the wrapped call would complete only after the elapsed time has
strictly exceeded the timeout, the waiting loop stops with the flag set
and the timeout error, for any sufficient fuel. -/
theorem process_abstract_wait_times_out (done_at timeout : Nat) (r : String) :
    ∀ fuel k, timeout + 1 < done_at → k ≤ timeout + 1 →
      timeout + 1 - k < fuel →
      process_abstract_wait done_at timeout r fuel k =
        (true, Except.error (timeout_message timeout)) := by
  intro fuel
  induction fuel with
  | zero => intro k _ _ h3; omega
  | succ n ih =>
    intro k h1 h2 h3
    by_cases hk : timeout < k
    · simp only [process_abstract_wait]
      rw [if_neg (by omega), if_pos hk]
    · simp only [process_abstract_wait]
      rw [if_neg (by omega), if_neg hk]
      exact ih (k + 1) h1 (by omega) (by omega)

/-- C4: if the elapsed time exceeds the configured timeout before the
wrapped call completes (done_at strictly beyond the first iteration whose
elapsed time exceeds timeout), process_abstract sets the stop flag of the
request status and raises the timeout error to the caller; an
AnalysisWorker whose _is_running flag is still true then emits exactly one
error signal, whose message carries the timeout tag making it
distinguishable as a timeout, and no finished signal. -/
theorem C4_timeout_reported (done_at timeout : Nat) (r : String)
    (paper_index : Nat) (h : timeout + 1 < done_at) :
    (process_abstract done_at timeout r).1 = true ∧
    (process_abstract done_at timeout r).2 =
      Except.error (timeout_message timeout) ∧
    analysis_run_emits true paper_index
        (analysis_api_outcome done_at timeout r) =
      [AEmit.error (timeout_tag ++ timeout_message timeout)] := by
  have key := process_abstract_wait_times_out done_at timeout r
    (done_at + timeout + 2) 0 h (by omega) (by omega)
  unfold process_abstract
  refine ⟨by rw [key], by rw [key], ?_⟩
  unfold analysis_api_outcome analysis_run_emits process_abstract
  rw [key]
  rfl

/-- Witness for C4: a call that would deliver its result at iteration 5
against a timeout of 2 units. -/
theorem C4_timeout_reported_witness :
    2 + 1 < 5 ∧
    ((process_abstract 5 2 "analysis").1 = true ∧
      (process_abstract 5 2 "analysis").2 =
        Except.error (timeout_message 2) ∧
      analysis_run_emits true 0 (analysis_api_outcome 5 2 "analysis") =
        [AEmit.error (timeout_tag ++ timeout_message 2)]) :=
  ⟨by decide, C4_timeout_reported 5 2 "analysis" 0 (by decide)⟩

/-- C6 counterexample: with a front entry whose index 5 has no live tab
and a valid next entry for index 0, process_analysis_queue removes the
invalid entry and starts nothing, while the pump of the specification
(discard and recurse immediately) would start a worker for the next
entry. The code does not pump again after discarding. -/
theorem C6_counterexample :
    (process_analysis_queue
        { queue := [(7, 5), (8, 0)], tabs := [0],
          is_analyzing := false, running := 0 }).started = none ∧
    (process_analysis_queue
        { queue := [(7, 5), (8, 0)], tabs := [0],
          is_analyzing := false, running := 0 }).state.queue = [(8, 0)] ∧
    (process_analysis_queue_spec
        { queue := [(7, 5), (8, 0)], tabs := [0],
          is_analyzing := false, running := 0 }).started = some (8, 0) := by
  decide

/-- C6 amended: when the pump finds that the front entry no longer maps
to a live tab, it removes exactly that entry, starts no worker, schedules
no timer (so no inter-request delay is incurred: process_analysis_queue
contains no timer at all), resets is_analyzing, and returns without
pumping again; remaining entries wait for the next externally triggered
pump. The conclusion is the complete effect of the call. -/
theorem C6_invalid_entry_discarded (s : SeqState) (paper index : Nat)
    (rest : List (Nat × Nat))
    (hq : s.queue = (paper, index) :: rest)
    (hv : s.tabs.contains index = false)
    (hb : s.is_analyzing = false) :
    process_analysis_queue s =
      { state := { s with queue := rest, is_analyzing := false }
        started := none } := by
  cases s with
  | mk q tabs busy running =>
    simp only at hq hb
    subst hq
    subst hb
    have hv2 : index ∉ tabs := by simpa using hv
    simp [process_analysis_queue, hv2]

/-- Witness for C6 with a single invalid entry. -/
theorem C6_invalid_entry_discarded_witness :
    process_analysis_queue
        { queue := [(7, 5)], tabs := [], is_analyzing := false,
          running := 0 } =
      { state := { queue := [], tabs := [], is_analyzing := false,
                   running := 0 }
        started := none } :=
  C6_invalid_entry_discarded _ 7 5 [] rfl (by decide) rfl

/-- C7: after a completion or error of a running Analysis worker, the
handler resets is_analyzing, starts no worker itself (the running count
does not increase), and, when the queue is still non-empty, reschedules
the pump only through a timer of analysis_delay seconds, which is
positive: the next worker start is at least analysis_delay after the
completion, never immediate. -/
theorem C7_delay_after_completion (s t : SeqState) (paper_index : Nat)
    (h1 : (handle_analysis_result s paper_index).state.queue ≠ [])
    (h2 : (handle_analysis_error t).state.queue ≠ []) :
    (handle_analysis_result s paper_index).sched = some analysis_delay ∧
    (handle_analysis_error t).sched = some analysis_delay ∧
    0 < analysis_delay ∧
    (handle_analysis_result s paper_index).state.is_analyzing = false ∧
    (handle_analysis_error t).state.is_analyzing = false ∧
    (handle_analysis_result s paper_index).state.running ≤ s.running ∧
    (handle_analysis_error t).state.running ≤ t.running := by
  have e1 : (handle_analysis_result s paper_index).sched =
      if (handle_analysis_result s paper_index).state.queue.isEmpty then none
      else some analysis_delay := rfl
  have e2 : (handle_analysis_error t).sched =
      if (handle_analysis_error t).state.queue.isEmpty then none
      else some analysis_delay := rfl
  refine ⟨?_, ?_, by decide, rfl, rfl, ?_, ?_⟩
  · rw [e1]
    cases hq : (handle_analysis_result s paper_index).state.queue with
    | nil => exact absurd hq h1
    | cons a l => rfl
  · rw [e2]
    cases hq : (handle_analysis_error t).state.queue with
    | nil => exact absurd hq h2
    | cons a l => rfl
  · exact Nat.sub_le _ _
  · exact Nat.sub_le _ _

/-- Witness for C7: a completion for index 0 and an error, each leaving
one further entry queued. -/
theorem C7_delay_after_completion_witness :
    ((handle_analysis_result
        { queue := [(1, 0), (2, 1)], tabs := [0, 1],
          is_analyzing := true, running := 1 } 0).state.queue ≠ [] ∧
      (handle_analysis_error
        { queue := [(3, 0), (4, 1)], tabs := [0, 1],
          is_analyzing := true, running := 1 }).state.queue ≠ []) ∧
    ((handle_analysis_result
        { queue := [(1, 0), (2, 1)], tabs := [0, 1],
          is_analyzing := true, running := 1 } 0).sched =
        some analysis_delay ∧
      (handle_analysis_error
        { queue := [(3, 0), (4, 1)], tabs := [0, 1],
          is_analyzing := true, running := 1 }).sched =
        some analysis_delay ∧
      0 < analysis_delay ∧
      (handle_analysis_result
        { queue := [(1, 0), (2, 1)], tabs := [0, 1],
          is_analyzing := true, running := 1 } 0).state.is_analyzing
        = false ∧
      (handle_analysis_error
        { queue := [(3, 0), (4, 1)], tabs := [0, 1],
          is_analyzing := true, running := 1 }).state.is_analyzing
        = false ∧
      (handle_analysis_result
        { queue := [(1, 0), (2, 1)], tabs := [0, 1],
          is_analyzing := true, running := 1 } 0).state.running ≤ 1 ∧
      (handle_analysis_error
        { queue := [(3, 0), (4, 1)], tabs := [0, 1],
          is_analyzing := true, running := 1 }).state.running ≤ 1) :=
  ⟨⟨by decide, by decide⟩,
   C7_delay_after_completion
     { queue := [(1, 0), (2, 1)], tabs := [0, 1],
       is_analyzing := true, running := 1 }
     { queue := [(3, 0), (4, 1)], tabs := [0, 1],
       is_analyzing := true, running := 1 }
     0 (by decide) (by decide)⟩

/-- Every event of the coordinating thread preserves the sequencing
invariant. -/
theorem step_ev_preserves_inv (s : SeqState) (e : Ev) (h : seq_inv s) :
    seq_inv (step_ev s e) := by
  obtain ⟨q, tabs, busy, running⟩ := s
  simp only [seq_inv] at h
  obtain ⟨h1, h2⟩ := h
  cases e with
  | pump =>
    cases busy with
    | true =>
      simpa [step_ev, process_analysis_queue, seq_inv] using h1
    | false =>
      have hr0 : running = 0 := by
        by_cases hr : running = 1
        · exact absurd (h2 hr) (by simp)
        · omega
      cases q with
      | nil =>
        simp [step_ev, process_analysis_queue, seq_inv]
        omega
      | cons head rest =>
        obtain ⟨paper, index⟩ := head
        by_cases ht : index ∈ tabs
        · simp [step_ev, process_analysis_queue, seq_inv, ht, hr0]
        · simp [step_ev, process_analysis_queue, seq_inv, ht, hr0]
  | complete paper_index =>
    simp [step_ev, handle_analysis_result, seq_inv]
    omega
  | errored =>
    simp [step_ev, handle_analysis_error, seq_inv]
    omega
  | enqueue entries new_tabs =>
    simpa [step_ev, handle_search_results_enqueue, seq_inv] using ⟨h1, h2⟩
  | cleanup =>
    simp [step_ev, cleanup_before_search, seq_inv]

/-- The sequencing invariant holds after any event sequence from any
state satisfying it. -/
theorem run_events_preserves_inv (es : List Ev) :
    ∀ s : SeqState, seq_inv s → seq_inv (run_events s es) := by
  induction es with
  | nil => intro s h; exact h
  | cons e es ih =>
    intro s h
    exact ih _ (step_ev_preserves_inv s e h)

/-- C1 counterexample, against the clause that is_analyzing is reset to
false only in the completion and error handlers: the pre-search cleanup
(cleanup_before_search, which is neither of the two handlers, and which
stops the in-flight worker silently so that no handler will ever fire for
it) resets is_analyzing from true to false. -/
theorem C1_counterexample :
    ({ queue := [(1, 0)], tabs := [0], is_analyzing := true,
       running := 1 } : SeqState).is_analyzing = true ∧
    (cleanup_before_search
      { queue := [(1, 0)], tabs := [0], is_analyzing := true,
        running := 1 }).is_analyzing = false := by
  decide

/-- C1 amended: for every sequence of enqueue, pump, completion, error
and re-search cleanup events driven through the coordinating context, at
most one AnalysisWorker is in the Running state at any time;
process_analysis_queue starts a worker only when is_analyzing is false
and sets it true before starting; is_analyzing is reset to false in the
completion and error handlers, and additionally in the invalid-entry
branch of process_analysis_queue (where no worker was started) and in the
pre-search cleanup (after every worker has been stopped and joined). -/
theorem C1_at_most_one_running :
    (∀ es : List Ev, (run_events init_state es).running ≤ 1) ∧
    (∀ s : SeqState, (process_analysis_queue s).started.isSome = true →
      s.is_analyzing = false ∧
      (process_analysis_queue s).state.is_analyzing = true) := by
  constructor
  · intro es
    exact (run_events_preserves_inv es init_state (by decide)).1
  · intro s hs
    obtain ⟨q, tabs, busy, running⟩ := s
    cases busy with
    | true => simp [process_analysis_queue] at hs
    | false =>
      cases q with
      | nil => simp [process_analysis_queue] at hs
      | cons head rest =>
        obtain ⟨paper, index⟩ := head
        by_cases ht : index ∈ tabs
        · exact ⟨rfl, by simp [process_analysis_queue, ht]⟩
        · simp [process_analysis_queue, ht] at hs

/-- A step taken from a state whose run has exited leaves the run exited
and emits nothing: all emissions happen strictly inside the run. -/
theorem aw_step_from_exited {s t : AWState} (hstep : AWStep s t)
    (h : s.phase = RunPhase.exited) :
    t.phase = RunPhase.exited ∧ t.emitted = s.emitted := by
  cases hstep <;> simp_all

/-- Reachability from an exited state keeps the run exited and the
emission list unchanged. -/
theorem aw_reaches_from_exited {s t : AWState} (h : AWReaches s t)
    (hx : s.phase = RunPhase.exited) :
    t.phase = RunPhase.exited ∧ t.emitted = s.emitted := by
  induction h with
  | refl => exact ⟨hx, rfl⟩
  | tail hab hbc ih =>
    obtain ⟨h1, h2⟩ := ih
    obtain ⟨h3, h4⟩ := aw_step_from_exited hbc h1
    exact ⟨h3, h4.trans h2⟩

/-- A single step preserves the property that a returned stop implies an
exited run (wait() returns only once the thread has exited, and an exited
run stays exited). -/
theorem aw_step_returned_exited {s t : AWState} (hstep : AWStep s t)
    (h : s.stop_ph = StopPhase.returned → s.phase = RunPhase.exited) :
    t.stop_ph = StopPhase.returned → t.phase = RunPhase.exited := by
  cases hstep <;> intro hr <;> simp_all

/-- In every state reachable from a freshly started worker, a returned
stop() implies the run has exited. -/
theorem aw_returned_implies_exited {paper_index : Nat} {s : AWState}
    (h : AWReaches (aw_init paper_index) s)
    (hr : s.stop_ph = StopPhase.returned) :
    s.phase = RunPhase.exited := by
  induction h with
  | refl => simp [aw_init] at hr
  | tail hab hbc ih =>
    exact aw_step_returned_exited hbc (fun hx => ih hx) hr

/-- C3 amended: for an Analysis worker, stop() blocks until the thread
has exited (in every reachable state where stop() has returned, the run
phase is exited), and after stop() has returned no finished or error
signal is ever delivered for that worker, regardless of whether the
wrapped call later returned a result (every further reachable state has
the same emission list). The Download worker, by contrast, defines no
stop method at all. -/
theorem C3_stop_joins_and_silences (paper_index : Nat) (s : AWState)
    (h1 : AWReaches (aw_init paper_index) s)
    (h2 : s.stop_ph = StopPhase.returned) :
    s.phase = RunPhase.exited ∧
    (∀ t : AWState, AWReaches s t → t.emitted = s.emitted) ∧
    has_stop_method WorkerKind.download = false := by
  have hx := aw_returned_implies_exited h1 h2
  exact ⟨hx, fun t ht => (aw_reaches_from_exited ht hx).2, rfl⟩

/-- Witness for C3: the interleaving stop-flag assignment, run() flag
check (observing false and exiting without calling the api), wait()
return. -/
theorem C3_stop_joins_and_silences_witness :
    (⟨false, RunPhase.exited, StopPhase.returned, [], 0⟩ : AWState).phase
        = RunPhase.exited ∧
    (∀ t : AWState,
        AWReaches ⟨false, RunPhase.exited, StopPhase.returned, [], 0⟩ t →
        t.emitted =
          (⟨false, RunPhase.exited, StopPhase.returned, [], 0⟩ :
            AWState).emitted) ∧
    has_stop_method WorkerKind.download = false := by
  refine C3_stop_joins_and_silences 0
    ⟨false, RunPhase.exited, StopPhase.returned, [], 0⟩ ?_ rfl
  exact Relation.ReflTransGen.head (AWStep.stop_set (aw_init 0) rfl)
    (Relation.ReflTransGen.head (AWStep.check_stopped _ rfl rfl)
      (Relation.ReflTransGen.single (AWStep.stop_join _ rfl rfl)))

/-- C3 counterexample: the claim covers Download workers, but the
DownloadWorker class defines no stop method (the hasattr dispatch in
main.py skips it), and its run emits its finished signal unconditionally,
with no flag that could suppress delivery. -/
theorem C3_counterexample :
    has_stop_method WorkerKind.download = false ∧
    download_worker_run 1000 (DownloadScenario.complete [1000]) =
      [DEmit.finished true] :=
  ⟨rfl, rfl⟩

/-- Every running total of the downloaded counter is bounded by the
start value plus the total bytes of the chunk list. -/
theorem cum_written_le (l : List Nat) :
    ∀ (acc x : Nat), x ∈ cum_written acc l → x ≤ acc + l.sum := by
  induction l with
  | nil => intro acc x hx; simp [cum_written] at hx
  | cons c cs ih =>
    intro acc x hx
    simp only [cum_written, List.mem_cons] at hx
    rcases hx with rfl | hx
    · simp only [List.sum_cons]; omega
    · have := ih (acc + c) x hx
      simp only [List.sum_cons]
      omega

/-- The last running total equals the start value plus the total bytes. -/
theorem cum_written_getLast (l : List Nat) :
    ∀ (acc c : Nat),
      (cum_written acc (c :: l)).getLast? = some (acc + (c :: l).sum) := by
  induction l with
  | nil => intro acc c; simp [cum_written]
  | cons d t ih =>
    intro acc c
    have h2 := ih (acc + c) d
    simp only [cum_written] at h2 ⊢
    rw [List.getLast?_cons_cons, h2]
    simp only [List.sum_cons, Option.some.injEq]
    omega

/-- getLast? commutes with map. -/
theorem getLast_of_map (f : Nat → Nat) :
    ∀ l : List Nat, (l.map f).getLast? = l.getLast?.map f := by
  intro l
  induction l with
  | nil => rfl
  | cons a t ih =>
    cases t with
    | nil => rfl
    | cons b u =>
      simp only [List.map_cons] at ih ⊢
      rw [List.getLast?_cons_cons, List.getLast?_cons_cons, ih]

/-- C9 counterexample: for an exception interrupting the transfer after a
chunk, the Download worker emits one finished(false) signal and zero
error signals, because download_paper catches the exception and returns
False: the claimed Error-not-Finished outcome for an exception during
transfer is false on the code. The progress value that was computed went
to the download_progress signal of the api object; the worker progress
signal stayed silent. -/
theorem C9_counterexample :
    download_worker_run 1000
        (DownloadScenario.transferError [300] "connection reset") =
      [DEmit.finished false] ∧
    (download_paper 1000
        (DownloadScenario.transferError [300] "connection reset")).api_progress
      = [30] :=
  ⟨rfl, rfl⟩

/-- C9 amended: when the response carries a content-length header
covering the transferred bytes, a progress value is computed after each
chunk write and emitted on the download_progress signal of the api object
(never on the worker progress signal, which no code emits); the values
never exceed 100 and end at 100 on full transfer; with the header absent
(total_size 0) no progress is emitted; the worker emits finished(true) on
success and finished(false) both when the server signaled failure and
when an exception occurred during transfer, and its error signal never
fires because download_paper never raises. -/
theorem C9_download_behaviour (total_size : Nat) (chunks : List Nat)
    (h0 : 0 < total_size) (hne : chunks ≠ [])
    (hsum : chunks.sum = total_size) :
    (∀ p ∈ (download_paper total_size
        (DownloadScenario.complete chunks)).api_progress, p ≤ 100) ∧
    (download_paper total_size
        (DownloadScenario.complete chunks)).api_progress.getLast?
      = some 100 ∧
    (∀ written : List Nat, progress_values 0 written = []) ∧
    download_worker_run total_size (DownloadScenario.complete chunks) =
      [DEmit.finished true] ∧
    (∀ (written : List Nat) (m : String),
      download_worker_run total_size
          (DownloadScenario.transferError written m) =
        [DEmit.finished false]) ∧
    (∀ m : String,
      download_worker_run total_size (DownloadScenario.httpError m) =
        [DEmit.finished false]) ∧
    (∀ scen : DownloadScenario,
      (download_worker_run total_size scen).all
        (fun e => match e with
          | DEmit.progress _ => false
          | DEmit.finished _ => true
          | DEmit.error _ => true) = true) := by
  have hprog : (download_paper total_size
      (DownloadScenario.complete chunks)).api_progress =
      (cum_written 0 chunks).map
        (fun downloaded => downloaded * 100 / total_size) := by
    simp [download_paper, progress_values, Nat.pos_iff_ne_zero.mp h0]
  refine ⟨?_, ?_, ?_, rfl, fun _ _ => rfl, fun _ => rfl, fun scen => rfl⟩
  · intro p hp
    rw [hprog] at hp
    simp only [List.mem_map] at hp
    obtain ⟨d, hd, rfl⟩ := hp
    have hdle : d ≤ total_size := by
      have := cum_written_le chunks 0 d hd
      omega
    calc d * 100 / total_size
        ≤ total_size * 100 / total_size :=
          Nat.div_le_div_right (Nat.mul_le_mul_right _ hdle)
      _ = 100 := Nat.mul_div_cancel_left 100 h0
  · rw [hprog, getLast_of_map]
    cases chunks with
    | nil => exact absurd rfl hne
    | cons c cs =>
      rw [cum_written_getLast]
      show some ((0 + (c :: cs).sum) * 100 / total_size) = some 100
      have hs : (c :: cs).sum = total_size := hsum
      rw [Nat.zero_add, hs, Nat.mul_div_cancel_left 100 h0]
  · intro written
    unfold progress_values
    rw [if_pos rfl]

/-- Witness for C9: a 1000-byte payload transferred in chunks of 300,
300 and 400 bytes. -/
theorem C9_download_behaviour_witness :
    (0 < 1000 ∧ ([300, 300, 400] : List Nat) ≠ [] ∧
      ([300, 300, 400] : List Nat).sum = 1000) ∧
    ((∀ p ∈ (download_paper 1000
        (DownloadScenario.complete [300, 300, 400])).api_progress,
        p ≤ 100) ∧
      (download_paper 1000
          (DownloadScenario.complete [300, 300, 400])).api_progress.getLast?
        = some 100 ∧
      (∀ written : List Nat, progress_values 0 written = []) ∧
      download_worker_run 1000 (DownloadScenario.complete [300, 300, 400]) =
        [DEmit.finished true] ∧
      (∀ (written : List Nat) (m : String),
        download_worker_run 1000
            (DownloadScenario.transferError written m) =
          [DEmit.finished false]) ∧
      (∀ m : String,
        download_worker_run 1000 (DownloadScenario.httpError m) =
          [DEmit.finished false]) ∧
      (∀ scen : DownloadScenario,
        (download_worker_run 1000 scen).all
          (fun e => match e with
            | DEmit.progress _ => false
            | DEmit.finished _ => true
            | DEmit.error _ => true) = true)) :=
  ⟨⟨by decide, by decide, by decide⟩,
   C9_download_behaviour 1000 [300, 300, 400] (by decide) (by decide)
     (by decide)⟩

end ArxivSummarizer
